import Mathlib

/-!
Verification of the enrollment rules engine of sistema-Universidad-API.

The embedding translates the three source files:
  * `models.py`  — the data model (`Estudiante`, `Curso`, `Matricula`) and the
    `validar_horario` field validator;
  * `main.py`    — the FastAPI handlers: `horarios_conflicto`, the CRUD handlers
    for students and courses, `cancelar_semestre`, `matricular_estudiante` and
    `desmatricular_estudiante`;
  * `database.py` — a SQLite session; modelled as a record of three tables
    (lists of rows).

Python exceptions (`HTTPException` and uncaught errors reaching the generic
handler) are modelled by the `Violation` inductive; each constructor carries
exactly the values the corresponding `detail` f-string interpolates, and the
functions `Violation.status_code` / `Violation.detalle` reproduce the status
code and detail string of each raise site.

A load-bearing fact of the source: `models.py` declares the `Curso` model
with only the columns `id`, `codigo`, `nombre`, `creditos` and `horario` —
there is NO `cupo_maximo` column — while the enrollment handler reads
`curso_nuevo.cupo_maximo` at `main.py` line 508.  That read raises
`AttributeError`, which the generic exception handler turns into a 500, so
the capacity comparison, the schedule-conflict loop (lines 516-522) and the
`session.add` (line 526) are unreachable: the program can never answer
CourseFull or ScheduleConflict and can never create an enrollment link.  The
embedding reproduces this: `matricular_estudiante` returns
`Violation.errorAtributo` whenever the first three checks pass.
-/

deriving instance DecidableEq for Except

/-- Row of the `estudiante` table (`models.py`, `Estudiante`). -/
structure Estudiante where
  id : Nat
  cedula : String
  nombre : String
  email : String
  semestre : Nat
deriving DecidableEq, Repr

/-- Row of the `curso` table (`models.py`, `CursoBase`/`Curso`): exactly the
declared columns.  Note there is no seat-capacity column, although the
handler docstrings of `main.py` describe one (`cupo_maximo`) — that field
simply does not exist on the model. -/
structure Curso where
  id : Nat
  codigo : String
  nombre : String
  creditos : Nat
  horario : String
deriving DecidableEq, Repr

/-- Row of the `matricula` link table (`models.py`, `Matricula`); the composite
primary key is the pair (estudiante_id, curso_id). -/
structure Matricula where
  estudiante_id : Nat
  curso_id : Nat
deriving DecidableEq, Repr

/-- The whole SQLite database (`database.py`): the three tables, each a list of
rows in insertion order. -/
structure DB where
  estudiantes : List Estudiante
  cursos : List Curso
  matriculas : List Matricula
deriving DecidableEq, Repr

/-- Python's `str.split(sep)` for a single-character separator, over the
character list of the string. -/
def dividir (sep : Char) : List Char → List (List Char)
  | [] => [[]]
  | c :: resto =>
    let r := dividir sep resto
    if c == sep then
      [] :: r
    else
      match r with
      | grupo :: gs => (c :: grupo) :: gs
      | [] => [[c]]

/-- Accumulator pass of decimal parsing: consumes the remaining characters,
failing on any non-digit. -/
def valor_decimal : List Char → Nat → Option Nat
  | [], acc => some acc
  | c :: resto, acc =>
    if c.isDigit then
      valor_decimal resto (acc * 10 + (c.toNat - 48))
    else
      none

/-- Python's `int(...)` on the strings this program feeds it: an optional minus
sign followed by one or more ASCII digits; anything else raises `ValueError`,
modelled as `none`. -/
def entero? : List Char → Option Int
  | [] => none
  | '-' :: resto =>
    match resto with
    | [] => none
    | _ => (valor_decimal resto 0).map (fun n => -(n : Int))
  | l => (valor_decimal l 0).map (fun n => (n : Int))

/-- The inner helper `a_minutos` of `horarios_conflicto` (`main.py` lines
77-80): `h, m = map(int, hora_str.split(":")); return h * 60 + m`.  `none`
models the `ValueError` a malformed time raises. -/
def a_minutos (hora_str : List Char) : Option Int :=
  match dividir ':' hora_str with
  | [h_str, m_str] =>
    match entero? h_str, entero? m_str with
    | some h, some m => some (h * 60 + m)
    | _, _ => none
  | _ => none

/-- Parsing a window string "HH:MM-HH:MM" into (start, end) in minutes since
midnight, exactly as `horarios_conflicto` parses each of its two arguments:
split on "-", then `a_minutos` on each half. -/
def ventana_en_minutos (horario : String) : Option (Int × Int) :=
  match dividir '-' horario.data with
  | [inicio_str, fin_str] =>
    match a_minutos inicio_str, a_minutos fin_str with
    | some inicio, some fin => some (inicio, fin)
    | _, _ => none
  | _ => none

/-- The schedule conflict checker `horarios_conflicto` (`main.py` lines 65-93):
pure, no I/O; returns `inicio1 < fin2 and inicio2 < fin1`.  `none` models the
uncaught `ValueError` on a malformed window string. -/
def horarios_conflicto (horario1 horario2 : String) : Option Bool :=
  match ventana_en_minutos horario1, ventana_en_minutos horario2 with
  | some (inicio1, fin1), some (inicio2, fin2) =>
      some (decide (inicio1 < fin2) && decide (inicio2 < fin1))
  | _, _ => none

/-- The `validar_horario` field validator (`models.py` lines 41-69).  Any
parse failure inside the `try` block yields the format error; then the hour
components are compared with 7 and 22, and the duration in minutes with 0, 60
and 240.  `.ok` returns the accepted string unchanged. -/
def validar_horario (v : String) : Except String String :=
  match dividir '-' v.data with
  | [inicio_str, fin_str] =>
    match dividir ':' inicio_str, dividir ':' fin_str with
    | [h_inicio_str, m_inicio_str], [h_fin_str, m_fin_str] =>
      match entero? h_inicio_str, entero? m_inicio_str,
            entero? h_fin_str, entero? m_fin_str with
      | some h_inicio, some m_inicio, some h_fin, some m_fin =>
        if h_inicio < 7 || h_fin > 22 then
          .error "El horario debe estar entre 07:00 y 22:00"
        else
          let duracion := (h_fin * 60 + m_fin) - (h_inicio * 60 + m_inicio)
          if duracion ≤ 0 then
            .error "La hora de fin debe ser posterior a la hora de inicio"
          else if duracion < 60 then
            .error "La clase debe durar al menos 1 hora"
          else if duracion > 240 then
            .error "La clase no puede durar más de 4 horas"
          else
            .ok v
      | _, _, _, _ => .error "Formato de horario inválido. Use HH:MM-HH:MM"
    | _, _ => .error "Formato de horario inválido. Use HH:MM-HH:MM"
  | _ => .error "Formato de horario inválido. Use HH:MM-HH:MM"

/-- The errors the handlers can answer with.  One constructor per raise site;
each carries exactly the values its `detail` f-string interpolates.
`cursoLleno` and `conflictoHorario` are written at `main.py` lines 509-522
but are unreachable at runtime: the `curso_nuevo.cupo_maximo` read at line
508 raises `AttributeError` first, because the Curso model has no such
column.  The last two constructors model errors that are not raised as
`HTTPException` but reach the generic `Exception` handler of `main.py`
(lines 55-61): `errorIntegridad` is the `IntegrityError` raised at commit by
the UNIQUE column constraints declared in `models.py` (`cedula`, `codigo`),
and `errorAtributo` is the `AttributeError` of the missing-column read. -/
inductive Violation where
  | estudianteOCursoNoEncontrado
  | yaMatriculado
  | limiteCreditos (creditos_actuales : Nat)
  | cursoLleno (nombre : String) (inscritos : Nat) (cupo : Nat)
  | conflictoHorario (nombre_actual horario_actual horario_nuevo : String)
  | estudianteNoEncontrado
  | sinMateriasMatriculadas
  | cedulaDuplicada
  | codigoDuplicado
  | cursoNoEncontrado
  | matriculaNoExiste
  | errorIntegridad (mensaje : String)
  | errorAtributo
deriving DecidableEq, Repr

/-- HTTP status code at each raise site of `main.py` (500 for the two error
kinds handled by the generic exception handler). -/
def Violation.status_code : Violation → Nat
  | .estudianteOCursoNoEncontrado => 404
  | .yaMatriculado => 409
  | .limiteCreditos _ => 400
  | .cursoLleno _ _ _ => 409
  | .conflictoHorario _ _ _ => 409
  | .estudianteNoEncontrado => 404
  | .sinMateriasMatriculadas => 400
  | .cedulaDuplicada => 409
  | .codigoDuplicado => 409
  | .cursoNoEncontrado => 404
  | .matriculaNoExiste => 404
  | .errorIntegridad _ => 500
  | .errorAtributo => 500

/-- Detail string of each raise site of `main.py`, reproduced verbatim
(`\x27` is the ASCII apostrophe the source quotes course names with). -/
def Violation.detalle : Violation → String
  | .estudianteOCursoNoEncontrado => "Estudiante o curso no encontrado"
  | .yaMatriculado => "El estudiante ya está matriculado en este curso"
  | .limiteCreditos creditos_actuales =>
      "Límite de créditos excedido. Actualmente tienes " ++
        toString creditos_actuales ++ " créditos, "
  | .cursoLleno nombre inscritos cupo =>
      "El curso \x27" ++ nombre ++ "\x27 está lleno. Capacidad: " ++
        toString inscritos ++ "/" ++ toString cupo ++ " estudiantes."
  | .conflictoHorario nombre_actual horario_actual horario_nuevo =>
      "Conflicto de horario: el estudiante ya tiene el curso \x27" ++
        nombre_actual ++ "\x27 en el horario " ++ horario_actual ++
        ", que se solapa con " ++ horario_nuevo
  | .estudianteNoEncontrado => "Estudiante no encontrado"
  | .sinMateriasMatriculadas => "El estudiante no tiene materias matriculadas"
  | .cedulaDuplicada => "Ya existe un estudiante con esa cédula"
  | .codigoDuplicado => "Ya existe un curso con ese código"
  | .cursoNoEncontrado => "Curso no encontrado"
  | .matriculaNoExiste => "La matrícula no existe"
  | .errorIntegridad mensaje => mensaje
  | .errorAtributo => "\x27Curso\x27 object has no attribute \x27cupo_maximo\x27"

/-- Lookup `session.get(Estudiante, estudiante_id)`: the row whose primary key
matches. -/
def session_get_estudiante (db : DB) (estudiante_id : Nat) : Option Estudiante :=
  db.estudiantes.find? (fun e => e.id == estudiante_id)

/-- Lookup `session.get(Curso, curso_id)`. -/
def session_get_curso (db : DB) (curso_id : Nat) : Option Curso :=
  db.cursos.find? (fun c => c.id == curso_id)

/-- The join `select(Curso).join(Matricula).where(Matricula.estudiante_id ==
estudiante_id)`: for each link row of the student, the course row it
references. -/
def cursos_del_estudiante (db : DB) (estudiante_id : Nat) : List Curso :=
  (db.matriculas.filter (fun m => m.estudiante_id == estudiante_id)).filterMap
    (fun m => session_get_curso db m.curso_id)

/-- Handler `crear_estudiante` (`main.py` lines 105-124): reject a duplicate
cedula with 409, otherwise insert the row.  The id of `estudiante` is the
primary key the database assigns at commit. -/
def crear_estudiante (db : DB) (estudiante : Estudiante) : Except Violation DB :=
  match db.estudiantes.find? (fun x => x.cedula == estudiante.cedula) with
  | some _ => .error .cedulaDuplicada
  | none => .ok { db with estudiantes := db.estudiantes ++ [estudiante] }

/-- Payload of the partial-update handler: `data.model_dump(exclude_unset=True)`
keeps only the fields the request body set. -/
structure EstudianteUpdate where
  cedula : Option String
  nombre : Option String
  email : Option String
  semestre : Option Nat
deriving DecidableEq, Repr

/-- The `setattr` loop of `actualizar_estudiante`: overwrite exactly the set
fields. -/
def aplicar_actualizacion_estudiante (e : Estudiante) (d : EstudianteUpdate) :
    Estudiante :=
  { e with
    cedula := d.cedula.getD e.cedula
    nombre := d.nombre.getD e.nombre
    email := d.email.getD e.email
    semestre := d.semestre.getD e.semestre }

/-- Handler `actualizar_estudiante` (`main.py` lines 203-225).  The handler
itself re-checks nothing about the cedula; the UNIQUE constraint on the
`cedula` column (`models.py` line 14, `Field(unique=True)`) makes the commit
fail with an `IntegrityError` when the updated cedula collides with a
different row, leaving the table unchanged — that constraint check is the
`db.estudiantes.any` guard below. -/
def actualizar_estudiante (db : DB) (estudiante_id : Nat)
    (data : EstudianteUpdate) : Except Violation DB :=
  match session_get_estudiante db estudiante_id with
  | none => .error .estudianteNoEncontrado
  | some estudiante =>
    let nuevo := aplicar_actualizacion_estudiante estudiante data
    if db.estudiantes.any (fun x => x.id != estudiante_id && x.cedula == nuevo.cedula) then
      .error (.errorIntegridad "UNIQUE constraint failed: estudiante.cedula")
    else
      .ok { db with
        estudiantes := db.estudiantes.map
          (fun x => if x.id == estudiante_id then nuevo else x) }

/-- Handler `eliminar_estudiante` (`main.py` lines 235-253): 404 when the
student is missing; otherwise delete every matricula row of the student, then
the student row, in one commit. -/
def eliminar_estudiante (db : DB) (estudiante_id : Nat) : Except Violation DB :=
  match session_get_estudiante db estudiante_id with
  | none => .error .estudianteNoEncontrado
  | some _ =>
    .ok { db with
      estudiantes := db.estudiantes.filter (fun e => e.id != estudiante_id)
      matriculas := db.matriculas.filter (fun m => m.estudiante_id != estudiante_id) }

/-- Handler `cancelar_semestre` (`main.py` lines 263-284): 404 when the student
is missing; 400 when the student has no matricula rows; otherwise delete all
of the student's matricula rows and keep the student row. -/
def cancelar_semestre (db : DB) (estudiante_id : Nat) : Except Violation DB :=
  match session_get_estudiante db estudiante_id with
  | none => .error .estudianteNoEncontrado
  | some _ =>
    let matriculas := db.matriculas.filter (fun m => m.estudiante_id == estudiante_id)
    if matriculas.isEmpty then
      .error .sinMateriasMatriculadas
    else
      .ok { db with
        matriculas := db.matriculas.filter (fun m => m.estudiante_id != estudiante_id) }

/-- Handler `crear_curso` (`main.py` lines 296-317): reject a duplicate codigo
with 409, otherwise insert the row.  (The `horario` field of the payload has
already passed `validar_horario` at request parsing.) -/
def crear_curso (db : DB) (curso : Curso) : Except Violation DB :=
  match db.cursos.find? (fun x => x.codigo == curso.codigo) with
  | some _ => .error .codigoDuplicado
  | none => .ok { db with cursos := db.cursos ++ [curso] }

/-- Partial-update payload for a course. -/
structure CursoUpdate where
  codigo : Option String
  nombre : Option String
  creditos : Option Nat
  horario : Option String
deriving DecidableEq, Repr

/-- The `setattr` loop of `actualizar_curso`. -/
def aplicar_actualizacion_curso (c : Curso) (d : CursoUpdate) : Curso :=
  { c with
    codigo := d.codigo.getD c.codigo
    nombre := d.nombre.getD c.nombre
    creditos := d.creditos.getD c.creditos
    horario := d.horario.getD c.horario }

/-- Handler `actualizar_curso` (`main.py` lines 384-406); as with the student
update, the guard models the UNIQUE constraint on the `codigo` column
(`models.py` line 36) enforced at commit. -/
def actualizar_curso (db : DB) (curso_id : Nat) (data : CursoUpdate) :
    Except Violation DB :=
  match session_get_curso db curso_id with
  | none => .error .cursoNoEncontrado
  | some curso =>
    let nuevo := aplicar_actualizacion_curso curso data
    if db.cursos.any (fun x => x.id != curso_id && x.codigo == nuevo.codigo) then
      .error (.errorIntegridad "UNIQUE constraint failed: curso.codigo")
    else
      .ok { db with
        cursos := db.cursos.map (fun x => if x.id == curso_id then nuevo else x) }

/-- Handler `eliminar_curso` (`main.py` lines 416-434): symmetric to
`eliminar_estudiante`. -/
def eliminar_curso (db : DB) (curso_id : Nat) : Except Violation DB :=
  match session_get_curso db curso_id with
  | none => .error .cursoNoEncontrado
  | some _ =>
    .ok { db with
      cursos := db.cursos.filter (fun c => c.id != curso_id)
      matriculas := db.matriculas.filter (fun m => m.curso_id != curso_id) }

/-- Business-rule constant of `main.py` line 8. -/
def CREDITOS_MAXIMOS_POR_SEMESTRE : Nat := 20

/-- Handler `matricular_estudiante` (`main.py` lines 446-528).  The checks
run in source order: existence (404), duplicate link (409), credit cap (400).
Then the handler queries the course's matricula rows and takes their length
(both succeed and are discarded), and evaluates
`estudiantes_inscritos >= curso_nuevo.cupo_maximo` — but the Curso model has
no `cupo_maximo` column, so that attribute read raises `AttributeError`,
answered as a 500 by the generic exception handler with no state change.
The capacity raise, the schedule-conflict loop (lines 516-522) and the
`session.add` of the new matricula row (line 526) are therefore dead code:
this handler never returns `cursoLleno` or `conflictoHorario` and never
inserts a row. -/
def matricular_estudiante (db : DB) (estudiante_id curso_id : Nat) :
    Except Violation DB :=
  match session_get_estudiante db estudiante_id, session_get_curso db curso_id with
  | some _, some curso_nuevo =>
    match db.matriculas.find?
        (fun m => m.estudiante_id == estudiante_id && m.curso_id == curso_id) with
    | some _ => .error .yaMatriculado
    | none =>
      let cursos_actuales := cursos_del_estudiante db estudiante_id
      let creditos_actuales := (cursos_actuales.map (fun c => c.creditos)).sum
      let creditos_totales := creditos_actuales + curso_nuevo.creditos
      if creditos_totales > CREDITOS_MAXIMOS_POR_SEMESTRE then
        .error (.limiteCreditos creditos_actuales)
      else
        let _estudiantes_inscritos :=
          (db.matriculas.filter (fun m => m.curso_id == curso_id)).length
        .error .errorAtributo
  | _, _ => .error .estudianteOCursoNoEncontrado

/-- Handler `desmatricular_estudiante` (`main.py` lines 538-569): 404 when no
link row matches the pair; otherwise delete the row, which is identified by
its composite primary key (estudiante_id, curso_id). -/
def desmatricular_estudiante (db : DB) (estudiante_id curso_id : Nat) :
    Except Violation DB :=
  match db.matriculas.find?
      (fun m => m.estudiante_id == estudiante_id && m.curso_id == curso_id) with
  | none => .error .matriculaNoExiste
  | some _ =>
    .ok { db with
      matriculas := db.matriculas.filter
        (fun m => !(m.estudiante_id == estudiante_id && m.curso_id == curso_id)) }

/-- One request against the API: the argument of each mutating handler. -/
inductive Operacion where
  | opCrearEstudiante (e : Estudiante)
  | opActualizarEstudiante (estudiante_id : Nat) (d : EstudianteUpdate)
  | opEliminarEstudiante (estudiante_id : Nat)
  | opCancelarSemestre (estudiante_id : Nat)
  | opCrearCurso (c : Curso)
  | opActualizarCurso (curso_id : Nat) (d : CursoUpdate)
  | opEliminarCurso (curso_id : Nat)
  | opMatricular (estudiante_id curso_id : Nat)
  | opDesmatricular (estudiante_id curso_id : Nat)
deriving DecidableEq, Repr

/-- Dispatch a request to its handler. -/
def aplicar (db : DB) : Operacion → Except Violation DB
  | .opCrearEstudiante e => crear_estudiante db e
  | .opActualizarEstudiante estudiante_id d => actualizar_estudiante db estudiante_id d
  | .opEliminarEstudiante estudiante_id => eliminar_estudiante db estudiante_id
  | .opCancelarSemestre estudiante_id => cancelar_semestre db estudiante_id
  | .opCrearCurso c => crear_curso db c
  | .opActualizarCurso curso_id d => actualizar_curso db curso_id d
  | .opEliminarCurso curso_id => eliminar_curso db curso_id
  | .opMatricular estudiante_id curso_id => matricular_estudiante db estudiante_id curso_id
  | .opDesmatricular estudiante_id curso_id => desmatricular_estudiante db estudiante_id curso_id

/-- The state the caller observes after a request: every handler raises before
its first `session.add`/`session.delete`, so a failed request leaves the
database exactly as it was. -/
def estado_tras (db : DB) (op : Operacion) : DB :=
  match aplicar db op with
  | .ok db' => db'
  | .error _ => db

/-- Both endpoints of a prospective matricula exist. -/
def existen (db : DB) (estudiante_id curso_id : Nat) : Prop :=
  (session_get_estudiante db estudiante_id).isSome = true ∧
    (session_get_curso db curso_id).isSome = true

instance (db : DB) (estudiante_id curso_id : Nat) :
    Decidable (existen db estudiante_id curso_id) :=
  inferInstanceAs (Decidable (_ ∧ _))

/-- Number of matricula rows for one (student, course) pair. -/
def cuenta_par (db : DB) (estudiante_id curso_id : Nat) : Nat :=
  (db.matriculas.filter
    (fun m => m.estudiante_id == estudiante_id && m.curso_id == curso_id)).length

/-- Number of matricula rows of one student. -/
def cuenta_estudiante (db : DB) (estudiante_id : Nat) : Nat :=
  (db.matriculas.filter (fun m => m.estudiante_id == estudiante_id)).length

/-- Credit weights the student currently carries, as summed by the handler. -/
def creditos_actuales_de (db : DB) (estudiante_id : Nat) : Nat :=
  ((cursos_del_estudiante db estudiante_id).map (fun c => c.creditos)).sum

/-- Credit weight of a course row (0 when the id resolves to nothing; every
use below is guarded by `existen`). -/
def creditos_del_curso (db : DB) (curso_id : Nat) : Nat :=
  match session_get_curso db curso_id with
  | some c => c.creditos
  | none => 0

/-- Primary keys of the `estudiante` table are pairwise distinct. -/
def ids_estudiantes_unicos (db : DB) : Prop :=
  db.estudiantes.Pairwise (fun a b => a.id ≠ b.id)

instance (db : DB) : Decidable (ids_estudiantes_unicos db) :=
  List.instDecidablePairwise _

/-- No two distinct student rows share a cedula (the uniqueness the spec calls
the national-ID invariant). -/
def cedulas_unicas (db : DB) : Prop :=
  db.estudiantes.Pairwise (fun a b => a.cedula ≠ b.cedula)

instance (db : DB) : Decidable (cedulas_unicas db) :=
  List.instDecidablePairwise _

/-- Substring test (on the underlying character lists), used to talk about
what a rendered detail string mentions. -/
def lista_infija (sub : List Char) : List Char → Bool
  | [] => sub.isEmpty
  | c :: resto => sub.isPrefixOf (c :: resto) || lista_infija sub resto

/-- `contiene s sub` holds when `sub` occurs contiguously inside `s`. -/
def contiene (s sub : String) : Bool :=
  lista_infija sub.data s.data

/-- Sample students for the concrete test database. -/
def ana : Estudiante := ⟨1, "10000001", "Ana", "ana@uni.co", 3⟩

/-- Second sample student, with no matriculas. -/
def beto : Estudiante := ⟨2, "10000002", "Beto", "beto@uni.co", 5⟩

/-- Sample course worth 9 credits, 07:00-08:00. -/
def algebra : Curso := ⟨1, "MAT101", "Algebra", 9, "07:00-08:00"⟩

/-- Sample course worth 9 credits, 08:00-09:00. -/
def fisica : Curso := ⟨2, "FIS201", "Fisica", 9, "08:00-09:00"⟩

/-- Sample course worth 5 credits, 09:00-10:00. -/
def quimica : Curso := ⟨3, "QUI301", "Quimica", 5, "09:00-10:00"⟩

/-- Sample course worth 3 credits, 10:00-11:00. -/
def biologia : Curso := ⟨4, "BIO401", "Biologia", 3, "10:00-11:00"⟩

/-- Concrete database: Ana is enrolled in algebra and fisica (18 credits);
Beto has no matriculas. -/
def dbU : DB :=
  { estudiantes := [ana, beto]
    cursos := [algebra, fisica, quimica, biologia]
    matriculas := [⟨1, 1⟩, ⟨1, 2⟩] }

example : matricular_estudiante dbU 1 3 = .error (.limiteCreditos 18) := by decide
example : matricular_estudiante dbU 99 1 = .error .estudianteOCursoNoEncontrado := by decide
example : matricular_estudiante dbU 2 3 = .error .errorAtributo := by decide
example : cancelar_semestre dbU 2 = .error .sinMateriasMatriculadas := by decide
example : cancelar_semestre dbU 99 = .error .estudianteNoEncontrado := by decide
example : eliminar_estudiante dbU 1 =
    .ok { dbU with estudiantes := [beto], matriculas := [] } := by decide
example : cedulas_unicas dbU := by decide
example : contiene (Violation.detalle (.limiteCreditos 18)) "18" = true := by decide
example : contiene (Violation.detalle (.limiteCreditos 18)) "23" = false := by decide
example : contiene (Violation.detalle (.limiteCreditos 18)) "20" = false := by decide

lemma horarios_conflicto_eq (h1 h2 : String) (i1 f1 i2 f2 : Int)
    (p1 : ventana_en_minutos h1 = some (i1, f1))
    (p2 : ventana_en_minutos h2 = some (i2, f2)) :
    horarios_conflicto h1 h2 = some (decide (i1 < f2) && decide (i2 < f1)) := by
  simp [horarios_conflicto, p1, p2]

lemma cuenta_par_eq_cero (db : DB) (eid cid : Nat) :
    cuenta_par db eid cid = 0 ↔
      db.matriculas.find?
        (fun m => m.estudiante_id == eid && m.curso_id == cid) = none := by
  simp [cuenta_par, List.length_eq_zero]

lemma matricular_sin_entidades (db : DB) (eid cid : Nat)
    (h : ¬ existen db eid cid) :
    matricular_estudiante db eid cid = .error .estudianteOCursoNoEncontrado := by
  rcases hE : session_get_estudiante db eid with _ | e
  · simp [matricular_estudiante, hE]
  · rcases hC : session_get_curso db cid with _ | c
    · simp [matricular_estudiante, hE, hC]
    · exact absurd ⟨by simp [hE], by simp [hC]⟩ h

lemma matricular_duplicado (db : DB) (eid cid : Nat)
    (h1 : existen db eid cid) (h2 : cuenta_par db eid cid ≠ 0) :
    matricular_estudiante db eid cid = .error .yaMatriculado := by
  rcases Option.isSome_iff_exists.mp h1.1 with ⟨e, hE⟩
  rcases Option.isSome_iff_exists.mp h1.2 with ⟨c, hC⟩
  rcases hdup : db.matriculas.find?
      (fun m => m.estudiante_id == eid && m.curso_id == cid) with _ | m
  · exact absurd ((cuenta_par_eq_cero db eid cid).mpr hdup) h2
  · simp [matricular_estudiante, hE, hC, hdup]

lemma creditos_del_curso_eq (db : DB) (cid : Nat) (c : Curso)
    (hC : session_get_curso db cid = some c) :
    creditos_del_curso db cid = c.creditos := by
  simp [creditos_del_curso, hC]

lemma matricular_credito (db : DB) (eid cid : Nat)
    (h1 : existen db eid cid) (h2 : cuenta_par db eid cid = 0)
    (h3 : creditos_actuales_de db eid + creditos_del_curso db cid > 20) :
    matricular_estudiante db eid cid =
      .error (.limiteCreditos (creditos_actuales_de db eid)) := by
  rcases Option.isSome_iff_exists.mp h1.1 with ⟨e, hE⟩
  rcases Option.isSome_iff_exists.mp h1.2 with ⟨c, hC⟩
  have hdup := (cuenta_par_eq_cero db eid cid).mp h2
  rw [creditos_del_curso_eq db cid c hC] at h3
  rw [creditos_actuales_de] at h3
  simp [matricular_estudiante, hE, hC, hdup, CREDITOS_MAXIMOS_POR_SEMESTRE,
    creditos_actuales_de, h3]

theorem conflicto_solapamiento_semiabierto (horario1 horario2 : String)
    (inicio1 fin1 inicio2 fin2 : Int)
    (p1 : ventana_en_minutos horario1 = some (inicio1, fin1))
    (p2 : ventana_en_minutos horario2 = some (inicio2, fin2)) :
    (horarios_conflicto horario1 horario2 = some true ↔
      inicio1 < fin2 ∧ inicio2 < fin1)
  ∧ horarios_conflicto "07:00-09:00" "09:00-11:00" = some false := by
  refine ⟨?_, by decide⟩
  rw [horarios_conflicto_eq horario1 horario2 inicio1 fin1 inicio2 fin2 p1 p2]
  simp

/-- Witness at concrete windows: 07:00-09:00 (420-540) against 08:00-10:00
(480-600) conflicts, matching the minute comparison. -/
theorem conflicto_solapamiento_semiabierto_testigo :
    horarios_conflicto "07:00-09:00" "08:00-10:00" = some true ↔
      (420 : Int) < 600 ∧ (480 : Int) < 540 :=
  (conflicto_solapamiento_semiabierto "07:00-09:00" "08:00-10:00"
    420 540 480 600 (by decide) (by decide)).1

lemma matricular_no_limite (db : DB) (eid cid : Nat)
    (h1 : existen db eid cid) (h2 : cuenta_par db eid cid = 0)
    (h3 : ¬ creditos_actuales_de db eid + creditos_del_curso db cid > 20) :
    ∀ n, matricular_estudiante db eid cid ≠ .error (.limiteCreditos n) := by
  intro n h
  rcases Option.isSome_iff_exists.mp h1.1 with ⟨e, hE⟩
  rcases Option.isSome_iff_exists.mp h1.2 with ⟨c, hC⟩
  have hdup := (cuenta_par_eq_cero db eid cid).mp h2
  have h3' := h3
  rw [creditos_del_curso_eq db cid c hC, creditos_actuales_de] at h3'
  simp only [matricular_estudiante, hE, hC, hdup] at h
  split_ifs at h with hcred
  · rw [CREDITOS_MAXIMOS_POR_SEMESTRE] at hcred
    exact h3' hcred
  · simp at h

/-- C3 (amended): when both entities exist and the pair is not already
enrolled, enrollment fails with `CreditLimitExceeded` iff the student's
current credit total plus the new course's credits exceeds 20 (a total of
exactly 20 is admitted); the violation carries the CURRENT total before the
new course — not the would-be total — and the rendered detail string contains
that value only, the limit being absent from the message. -/
theorem limite_creditos_caracterizacion (db : DB) (eid cid : Nat)
    (h1 : existen db eid cid) (h2 : cuenta_par db eid cid = 0) :
    ((∃ n, matricular_estudiante db eid cid = .error (.limiteCreditos n)) ↔
      creditos_actuales_de db eid + creditos_del_curso db cid > 20)
  ∧ (∀ n, matricular_estudiante db eid cid = .error (.limiteCreditos n) →
      n = creditos_actuales_de db eid)
  ∧ Violation.detalle (.limiteCreditos (creditos_actuales_de db eid)) =
      "Límite de créditos excedido. Actualmente tienes " ++
        toString (creditos_actuales_de db eid) ++ " créditos, " := by
  by_cases hcred : creditos_actuales_de db eid + creditos_del_curso db cid > 20
  · have hm := matricular_credito db eid cid h1 h2 hcred
    refine ⟨⟨fun _ => hcred, fun _ => ⟨_, hm⟩⟩, ?_, rfl⟩
    intro n h
    rw [hm] at h
    simpa using h.symm
  · refine ⟨⟨?_, fun hc => absurd hc hcred⟩, ?_, rfl⟩
    · rintro ⟨n, h⟩
      exact absurd h (matricular_no_limite db eid cid h1 h2 hcred n)
    · intro n h
      exact absurd h (matricular_no_limite db eid cid h1 h2 hcred n)

/-- Witness at the concrete database: for Ana (18 credits) and Quimica the
hypotheses hold and the detail string renders the current total. -/
theorem limite_creditos_caracterizacion_testigo :
    existen dbU 1 3 ∧ cuenta_par dbU 1 3 = 0 ∧
    Violation.detalle (.limiteCreditos (creditos_actuales_de dbU 1)) =
      "Límite de créditos excedido. Actualmente tienes " ++
        toString (creditos_actuales_de dbU 1) ++ " créditos, " :=
  ⟨by decide, by decide,
    (limite_creditos_caracterizacion dbU 1 3 (by decide) (by decide)).2.2⟩

/-- C3 counterexample to the claim as frozen: Ana carries 18 credits (two
9-credit courses) and enrolls in the 5-credit Quimica, so the would-be total
is 23; the violation carries 18 — the pre-enrollment total — and its rendered
detail mentions neither the claimed total 23 nor the claimed limit 20. -/
theorem limite_creditos_contraejemplo :
    matricular_estudiante dbU 1 3 = .error (.limiteCreditos 18) ∧
    creditos_actuales_de dbU 1 + creditos_del_curso dbU 3 = 23 ∧
    contiene (Violation.detalle (.limiteCreditos 18)) "18" = true ∧
    contiene (Violation.detalle (.limiteCreditos 18)) "23" = false ∧
    contiene (Violation.detalle (.limiteCreditos 18)) "20" = false := by
  refine ⟨by decide, by decide, by decide, by decide, by decide⟩

/-- C4: a request that returns any violation leaves the caller-observable
state unchanged: in the source every raise happens before the single
`session.add`, so no matricula row is created; the database after the failed
request is the one before it, and every pair count is unchanged. -/
theorem matricula_fallida_todo_o_nada (db : DB) (eid cid : Nat) (v : Violation)
    (h : matricular_estudiante db eid cid = .error v) :
    estado_tras db (.opMatricular eid cid) = db ∧
    (∀ sid did, cuenta_par (estado_tras db (.opMatricular eid cid)) sid did =
      cuenta_par db sid did) := by
  have hst : estado_tras db (.opMatricular eid cid) = db := by
    simp [estado_tras, aplicar, h]
  exact ⟨hst, fun sid did => by rw [hst]⟩

/-- Witness: the failed credit-capped request against `dbU` changes nothing. -/
theorem matricula_fallida_todo_o_nada_testigo :
    estado_tras dbU (.opMatricular 1 3) = dbU :=
  (matricula_fallida_todo_o_nada dbU 1 3 (.limiteCreditos 18) (by decide)).1

/-- C6: deleting a missing student fails with NotFound before any deletion and
the state is unchanged; deleting an existing student removes every matricula
row referencing it and then the student row, so the student lookup and every
pair count for that student come back absent, while courses, the other
students and the other students' links survive untouched. -/
theorem eliminar_estudiante_cascada (db : DB) (sid : Nat) :
    (session_get_estudiante db sid = none →
      eliminar_estudiante db sid = .error .estudianteNoEncontrado ∧
      estado_tras db (.opEliminarEstudiante sid) = db)
  ∧ (∀ db', eliminar_estudiante db sid = .ok db' →
      session_get_estudiante db' sid = none
      ∧ (∀ cid, cuenta_par db' sid cid = 0)
      ∧ db'.cursos = db.cursos
      ∧ (∀ e, e ∈ db'.estudiantes ↔ e ∈ db.estudiantes ∧ e.id ≠ sid)
      ∧ (∀ m, m ∈ db'.matriculas ↔ m ∈ db.matriculas ∧ m.estudiante_id ≠ sid)) := by
  constructor
  · intro h
    exact ⟨by simp [eliminar_estudiante, h],
      by simp [estado_tras, aplicar, eliminar_estudiante, h]⟩
  · intro db' h
    rcases hE : session_get_estudiante db sid with _ | e
    · simp [eliminar_estudiante, hE] at h
    · simp only [eliminar_estudiante, hE] at h
      simp only [Except.ok.injEq] at h
      subst h
      refine ⟨?_, ?_, rfl, ?_, ?_⟩
      · simp [session_get_estudiante, List.find?_eq_none, List.mem_filter]
      · intro cid
        simp only [cuenta_par, List.length_eq_zero, List.filter_eq_nil_iff]
        intro m hm
        rcases List.mem_filter.mp hm with ⟨_, hne⟩
        simp only [bne_iff_ne, ne_eq] at hne
        simp [hne]
      · intro e'
        simp [List.mem_filter]
      · intro m
        simp [List.mem_filter]

/-- Witness: deleting Ana (two active matriculas) yields the database without
her row and without either link, and both link lookups come back absent. -/
theorem eliminar_estudiante_cascada_testigo :
    eliminar_estudiante dbU 1 =
      .ok { estudiantes := [beto], cursos := [algebra, fisica, quimica, biologia],
            matriculas := [] } ∧
    session_get_estudiante
      { estudiantes := [beto], cursos := [algebra, fisica, quimica, biologia],
        matriculas := ([] : List Matricula) } 1 = none ∧
    cuenta_par
      { estudiantes := [beto], cursos := [algebra, fisica, quimica, biologia],
        matriculas := ([] : List Matricula) } 1 1 = 0 ∧
    cuenta_par
      { estudiantes := [beto], cursos := [algebra, fisica, quimica, biologia],
        matriculas := ([] : List Matricula) } 1 2 = 0 := by
  have h : eliminar_estudiante dbU 1 =
      .ok { estudiantes := [beto], cursos := [algebra, fisica, quimica, biologia],
            matriculas := [] } := by decide
  have c := (eliminar_estudiante_cascada dbU 1).2 _ h
  exact ⟨h, c.1, c.2.1 1, c.2.1 2⟩

/-- C7: cancelling the term of an existing student with zero links fails with
NoActiveEnrollments and the whole state — in particular the student row — is
untouched; with one or more links, all of that student's links are removed
while the student table, the course table and every other student's links
survive. -/
theorem cancelar_semestre_casos (db : DB) (sid : Nat) (e : Estudiante)
    (hE : session_get_estudiante db sid = some e) :
    (cuenta_estudiante db sid = 0 →
      cancelar_semestre db sid = .error .sinMateriasMatriculadas ∧
      estado_tras db (.opCancelarSemestre sid) = db)
  ∧ (cuenta_estudiante db sid ≠ 0 →
      ∃ db', cancelar_semestre db sid = .ok db' ∧
        db'.estudiantes = db.estudiantes ∧
        db'.cursos = db.cursos ∧
        (∀ m, m ∈ db'.matriculas ↔ m ∈ db.matriculas ∧ m.estudiante_id ≠ sid)) := by
  constructor
  · intro h0
    rw [cuenta_estudiante, List.length_eq_zero] at h0
    exact ⟨by simp [cancelar_semestre, hE, h0],
      by simp [estado_tras, aplicar, cancelar_semestre, hE, h0]⟩
  · intro h0
    have hne : ¬ (db.matriculas.filter
        (fun m => m.estudiante_id == sid)).isEmpty = true := by
      rw [List.isEmpty_iff]
      intro hnil
      exact h0 (by rw [cuenta_estudiante, hnil]; rfl)
    refine ⟨{ db with
        matriculas := db.matriculas.filter (fun m => m.estudiante_id != sid) },
      ?_, rfl, rfl, ?_⟩
    · simp [cancelar_semestre, hE, hne]
    · intro m
      simp [List.mem_filter]

/-- Witness: Beto exists and has zero matriculas; the call answers
NoActiveEnrollments and the database is untouched. -/
theorem cancelar_semestre_casos_testigo :
    session_get_estudiante dbU 2 = some beto ∧
    (cancelar_semestre dbU 2 = .error .sinMateriasMatriculadas ∧
      estado_tras dbU (.opCancelarSemestre 2) = dbU) :=
  ⟨by decide, (cancelar_semestre_casos dbU 2 beto (by decide)).1 (by decide)⟩

/-- C10: cancelling the term of a nonexistent student fails with NotFound —
a violation distinct from NoActiveEnrollments — because the existence check
runs before the empty-enrollment check, and the state is unchanged. -/
theorem cancelar_semestre_no_existe (db : DB) (sid : Nat)
    (h : session_get_estudiante db sid = none) :
    cancelar_semestre db sid = .error .estudianteNoEncontrado ∧
    Violation.estudianteNoEncontrado ≠ Violation.sinMateriasMatriculadas ∧
    estado_tras db (.opCancelarSemestre sid) = db := by
  exact ⟨by simp [cancelar_semestre, h], by simp,
    by simp [estado_tras, aplicar, cancelar_semestre, h]⟩

/-- Witness: student 99 does not exist in `dbU`. -/
theorem cancelar_semestre_no_existe_testigo :
    cancelar_semestre dbU 99 = .error .estudianteNoEncontrado ∧
    Violation.estudianteNoEncontrado ≠ Violation.sinMateriasMatriculadas ∧
    estado_tras dbU (.opCancelarSemestre 99) = dbU :=
  cancelar_semestre_no_existe dbU 99 (by decide)

lemma matricular_nunca_ok (db : DB) (eid cid : Nat) (db' : DB) :
    matricular_estudiante db eid cid ≠ .ok db' := by
  intro h
  rcases hE : session_get_estudiante db eid with _ | e
  · simp [matricular_estudiante, hE] at h
  rcases hC : session_get_curso db cid with _ | c
  · simp [matricular_estudiante, hE, hC] at h
  rcases hdup : db.matriculas.find?
      (fun m => m.estudiante_id == eid && m.curso_id == cid) with _ | m
  case some => simp [matricular_estudiante, hE, hC, hdup] at h
  simp only [matricular_estudiante, hE, hC, hdup] at h
  split_ifs at h

lemma matricular_atributo (db : DB) (eid cid : Nat)
    (h1 : existen db eid cid) (h2 : cuenta_par db eid cid = 0)
    (h3 : ¬ creditos_actuales_de db eid + creditos_del_curso db cid > 20) :
    matricular_estudiante db eid cid = .error .errorAtributo := by
  rcases Option.isSome_iff_exists.mp h1.1 with ⟨e, hE⟩
  rcases Option.isSome_iff_exists.mp h1.2 with ⟨c, hC⟩
  have hdup := (cuenta_par_eq_cero db eid cid).mp h2
  have h3' := h3
  rw [creditos_del_curso_eq db cid c hC, creditos_actuales_de] at h3'
  simp [matricular_estudiante, hE, hC, hdup, CREDITOS_MAXIMOS_POR_SEMESTRE,
    creditos_actuales_de, h3']

/-- C1 (code-bug evidence): the claimed five-check pipeline breaks at the
fourth check.  At the concrete request (Beto, Quimica) the existence,
duplicate and credit checks all pass, yet the handler answers the 500
AttributeError: `models.py` declares no `cupo_maximo` column, so the capacity
comparison at `main.py` line 508 raises before evaluating, the
schedule-conflict check never runs, no CourseFull violation can be produced,
and no enrollment link is created — the state is unchanged.  (The general
fact, for every database and request passing the first three checks, is
`matricular_atributo` above; `matricular_nunca_ok` shows no call ever
returns a new state.) -/
theorem matricula_choca_en_capacidad :
    existen dbU 2 3 ∧
    cuenta_par dbU 2 3 = 0 ∧
    creditos_actuales_de dbU 2 + creditos_del_curso dbU 3 ≤ 20 ∧
    matricular_estudiante dbU 2 3 = .error .errorAtributo ∧
    Violation.errorAtributo.status_code = 500 ∧
    Violation.errorAtributo.detalle =
      "\x27Curso\x27 object has no attribute \x27cupo_maximo\x27" ∧
    estado_tras dbU (.opMatricular 2 3) = dbU := by
  refine ⟨by decide, by decide, by decide, by decide, by decide, by decide,
    by decide⟩

/-- C5 (code-bug evidence): the claimed double-enrollment scenario is
unreachable.  Enrolling Beto in Quimica passes existence, duplication and the
credit cap, but the call answers the 500 AttributeError instead of creating
the link; the state is unchanged, the identical second call answers the same
500 — not AlreadyEnrolled — and the pair count stays 0, never reaching 1. -/
theorem doble_matricula_inalcanzable :
    matricular_estudiante dbU 2 3 = .error .errorAtributo ∧
    estado_tras dbU (.opMatricular 2 3) = dbU ∧
    matricular_estudiante (estado_tras dbU (.opMatricular 2 3)) 2 3 =
      .error .errorAtributo ∧
    (Violation.errorAtributo == Violation.yaMatriculado) = false ∧
    cuenta_par (estado_tras dbU (.opMatricular 2 3)) 2 3 = 0 := by
  refine ⟨by decide, by decide, by decide, by decide, by decide⟩

lemma estudiantes_tras (db : DB) (op : Operacion) :
    (estado_tras db op).estudiantes = db.estudiantes ∨
    (∃ p, (estado_tras db op).estudiantes = db.estudiantes.filter p) ∨
    (∃ e, (estado_tras db op).estudiantes = db.estudiantes ++ [e] ∧
      db.estudiantes.find? (fun x => x.cedula == e.cedula) = none) ∨
    (∃ sid nuevo, (estado_tras db op).estudiantes =
        db.estudiantes.map (fun x => if x.id == sid then nuevo else x) ∧
      (∀ x ∈ db.estudiantes, x.id ≠ sid → x.cedula ≠ nuevo.cedula)) := by
  rcases op with e | ⟨sid, d⟩ | sid | sid | c | ⟨cid, d⟩ | cid | ⟨eid, cid⟩ | ⟨eid, cid⟩
  · rcases hf : db.estudiantes.find? (fun x => x.cedula == e.cedula) with _ | x
    · exact Or.inr (Or.inr (Or.inl ⟨e,
        by simp [estado_tras, aplicar, crear_estudiante, hf], hf⟩))
    · exact Or.inl (by simp [estado_tras, aplicar, crear_estudiante, hf])
  · rcases hf : session_get_estudiante db sid with _ | e
    · exact Or.inl (by simp [estado_tras, aplicar, actualizar_estudiante, hf])
    · by_cases hany : db.estudiantes.any (fun x =>
          x.id != sid && x.cedula == (aplicar_actualizacion_estudiante e d).cedula) = true
      · exact Or.inl (by simp [estado_tras, aplicar, actualizar_estudiante, hf, hany])
      · refine Or.inr (Or.inr (Or.inr ⟨sid, aplicar_actualizacion_estudiante e d,
          by simp [estado_tras, aplicar, actualizar_estudiante, hf, hany], ?_⟩))
        intro x hx hid hced
        apply hany
        rw [List.any_eq_true]
        exact ⟨x, hx, by simp [hid, hced]⟩
  · rcases hf : session_get_estudiante db sid with _ | e
    · exact Or.inl (by simp [estado_tras, aplicar, eliminar_estudiante, hf])
    · exact Or.inr (Or.inl ⟨fun x => x.id != sid,
        by simp [estado_tras, aplicar, eliminar_estudiante, hf]⟩)
  · rcases hf : session_get_estudiante db sid with _ | e
    · exact Or.inl (by simp [estado_tras, aplicar, cancelar_semestre, hf])
    · by_cases hvacio : (db.matriculas.filter
          (fun m => m.estudiante_id == sid)).isEmpty = true
      · exact Or.inl (by simp [estado_tras, aplicar, cancelar_semestre, hf, hvacio])
      · exact Or.inl (by simp [estado_tras, aplicar, cancelar_semestre, hf, hvacio])
  · rcases hf : db.cursos.find? (fun x => x.codigo == c.codigo) with _ | x
    · exact Or.inl (by simp [estado_tras, aplicar, crear_curso, hf])
    · exact Or.inl (by simp [estado_tras, aplicar, crear_curso, hf])
  · rcases hf : session_get_curso db cid with _ | c
    · exact Or.inl (by simp [estado_tras, aplicar, actualizar_curso, hf])
    · by_cases hany : db.cursos.any (fun x =>
          x.id != cid && x.codigo == (aplicar_actualizacion_curso c d).codigo) = true
      · exact Or.inl (by simp [estado_tras, aplicar, actualizar_curso, hf, hany])
      · exact Or.inl (by simp [estado_tras, aplicar, actualizar_curso, hf, hany])
  · rcases hf : session_get_curso db cid with _ | c
    · exact Or.inl (by simp [estado_tras, aplicar, eliminar_curso, hf])
    · exact Or.inl (by simp [estado_tras, aplicar, eliminar_curso, hf])
  · rcases hr : matricular_estudiante db eid cid with v | db'
    · exact Or.inl (by simp [estado_tras, aplicar, hr])
    · exact absurd hr (matricular_nunca_ok db eid cid db')
  · rcases hf : db.matriculas.find?
        (fun m => m.estudiante_id == eid && m.curso_id == cid) with _ | m
    · exact Or.inl (by simp [estado_tras, aplicar, desmatricular_estudiante, hf])
    · exact Or.inl (by simp [estado_tras, aplicar, desmatricular_estudiante, hf])

/-- C9: in any state with pairwise-distinct student ids and pairwise-distinct
cedulas, every operation preserves cedula uniqueness — student creation
rejects a duplicate cedula with the 409 conflict before touching the table,
and a partial update whose resulting cedula collides with a different row is
stopped at commit by the UNIQUE column constraint of `models.py`. -/
theorem cedula_unica_invariante (db : DB) (op : Operacion)
    (hids : ids_estudiantes_unicos db) (hced : cedulas_unicas db) :
    cedulas_unicas (estado_tras db op)
  ∧ (∀ e, (∃ x ∈ db.estudiantes, x.cedula = e.cedula) →
      crear_estudiante db e = .error .cedulaDuplicada ∧
      estado_tras db (.opCrearEstudiante e) = db)
  ∧ Violation.status_code .cedulaDuplicada = 409 := by
  refine ⟨?_, ?_, rfl⟩
  · rcases estudiantes_tras db op with heq | ⟨p, heq⟩ | ⟨e, heq, hfind⟩ |
      ⟨sid, nuevo, heq, hguard⟩
    · rw [cedulas_unicas, heq]; exact hced
    · rw [cedulas_unicas, heq]
      exact List.Pairwise.sublist (List.filter_sublist _) hced
    · rw [cedulas_unicas, heq, List.pairwise_append]
      refine ⟨hced, List.pairwise_singleton _ _, ?_⟩
      intro a ha b hb
      rw [List.mem_singleton] at hb
      subst hb
      have := List.find?_eq_none.mp hfind a ha
      simpa using this
    · rw [cedulas_unicas, heq, List.pairwise_map]
      refine List.Pairwise.imp_of_mem ?_ (hids.and hced)
      intro a b ha hb hab
      by_cases hea : a.id = sid
      · have heb : ¬ b.id = sid := fun hb' => hab.1 (hea.trans hb'.symm)
        simp only [hea, heb, beq_self_eq_true, if_pos, beq_iff_eq, if_neg]
        exact fun hcc => (hguard b hb heb) hcc.symm
      · by_cases heb : b.id = sid
        · simp only [hea, heb, beq_self_eq_true, if_pos, beq_iff_eq, if_neg]
          exact hguard a ha hea
        · simp only [hea, heb, beq_iff_eq, if_neg]
          exact hab.2
  · intro e he
    rcases hf : db.estudiantes.find? (fun x => x.cedula == e.cedula) with _ | x
    · exfalso
      rcases he with ⟨x, hx, hcx⟩
      exact absurd (beq_iff_eq.mpr hcx) (by simpa using List.find?_eq_none.mp hf x hx)
    · exact ⟨by simp [crear_estudiante, hf],
        by simp [estado_tras, aplicar, crear_estudiante, hf]⟩

/-- Sample student whose cedula duplicates Ana's. -/
def anaDup : Estudiante := ⟨3, "10000001", "Ana Maria", "anam@uni.co", 1⟩

/-- Witness: `dbU` satisfies both hypotheses and creating a student with
Ana's cedula is rejected with the conflict, leaving the state unchanged. -/
theorem cedula_unica_invariante_testigo :
    ids_estudiantes_unicos dbU ∧ cedulas_unicas dbU ∧
    (crear_estudiante dbU anaDup = .error .cedulaDuplicada ∧
      estado_tras dbU (.opCrearEstudiante anaDup) = dbU) :=
  ⟨by decide, by decide,
    (cedula_unica_invariante dbU (.opCrearEstudiante anaDup)
      (by decide) (by decide)).2.1 anaDup ⟨ana, by decide, by decide⟩⟩

/-- C8 (code-bug evidence): `validar_horario` compares only the hour
components against the 07:00-22:00 range (`h_inicio < 7 or h_fin > 22` in
`models.py` line 57), so the window "20:00-22:30" — whose end time 22:30 lies
outside the range the validator's own docstring and error message promise —
is accepted: its end converts to 1350 minutes, past the 1320 minutes of
22:00. -/
theorem validar_horario_acepta_fin_2230 :
    validar_horario "20:00-22:30" = .ok "20:00-22:30" ∧
    ventana_en_minutos "20:00-22:30" = some (1200, 1350) ∧
    (1350 : Int) > 22 * 60 := by
  refine ⟨by decide, by decide, by decide⟩

example : ventana_en_minutos "07:00-09:00" = some (420, 540) := by decide
example : horarios_conflicto "07:00-09:00" "09:00-11:00" = some false := by decide
example : horarios_conflicto "07:00-09:00" "08:00-10:00" = some true := by decide
example : validar_horario "20:00-22:30" = .ok "20:00-22:30" := by decide
example : validar_horario "06:00-08:00" =
    .error "El horario debe estar entre 07:00 y 22:00" := by decide
example : validar_horario "mediodia" =
    .error "Formato de horario inválido. Use HH:MM-HH:MM" := by decide
